import Mathlib

/-!
The accept path, the job action and the server lifecycle of getsample_threaded.c.

A shallow embedding of `src/evhttp-thread-code/getsample_threaded.c`.

The C program is a sequence of calls into libevent, libc and the work queue.
Each function of the program becomes a function on an explicit `World`:

* heap objects (client records, event bases, evhttp instances, bound-socket
  handles, jobs) are identified by a fresh number taken from `World.next`;
  `World.live` lists those acquired and not yet released;
* every external call the program makes is appended to `World.trace`, with
  its arguments and its result, in program order;
* the result of each fallible external call is read from an environment
  record (`AcceptEnv`, `ServerEnv`, or an argument), so that every branch of
  the C code can be taken.

A `NULL` pointer is `none`.

Three facts of the libevent API (event2/event.h, event2/http.h) are used: the
callback of an event is called with the descriptor the event was created for
(`event_new`); a bound-socket handle references the descriptor that was handed
to `evhttp_accept_socket_with_handle`, which `evhttp_bound_socket_get_fd`
returns; and `evhttp_del_accept_socket` closes that descriptor and frees the
handle, which is an invalid pointer after the call.

Open descriptors are listed in `World.fds`.  Releasing an object that is not
live, or closing a descriptor that is not open, is recorded in `World.faults`;
the run is then followed further as the program text continues.
-/

namespace GetSample

/-! ## Data model -/

/-- The functions of the program that are handed around as function pointers. -/
inductive Fn
  | request_on_receivd
  | server_job_function
  | on_accept
  | sighandler
  deriving DecidableEq, Repr

/-- The libevent object behind a `struct evhttp_bound_socket *`: its identity and
the descriptor it references.  `evhttp_accept_socket_with_handle(http, fd)`
returns a handle that references the descriptor `fd` it was given, and
`evhttp_bound_socket_get_fd` reads that descriptor back. -/
structure evhttp_bound_socket where
  addr : Nat
  fd : Int
  deriving DecidableEq, Repr

/-- The record `struct client` (lines 45-54), together with the identity of the record. -/
structure client_t where
  addr : Nat
  evbase : Option Nat
  evhttp : Option Nat
  handle : Option evhttp_bound_socket
  deriving DecidableEq, Repr

/-- The record `struct job` of workqueue.h, as far as this file uses it: the two fields
assigned at lines 185-186, together with the identity of the record. -/
structure job_t where
  addr : Nat
  job_function : Fn
  user_data : client_t
  deriving DecidableEq, Repr

/-- Heap objects that are acquired and released by the program. -/
inductive Res
  | client (a : Nat)
  | evbase (a : Nat)
  | evhttp (a : Nat)
  | handle (a : Nat)
  | job (a : Nat)
  deriving DecidableEq, Repr

/-- The messages the program prints, named after the call site. -/
inductive Msg
  | client_alloc_failed
  | client_evbase_failed
  | client_evhttp_failed
  | accept_failed
  | client_nonblocking_failed
  | job_alloc_failed
  | socket_failed
  | bind_failed
  | listen_failed
  | server_nonblocking_failed
  | accept_evbase_failed
  | workqueue_failed
  | server_running
  | server_shutdown
  | stopping_listener
  | loopexit_failed
  | stopping_workers
  deriving DecidableEq, Repr

/-- The request commands of libevent (`enum evhttp_cmd_type`). -/
inductive evhttp_cmd_type
  | EVHTTP_REQ_GET
  | EVHTTP_REQ_POST
  | EVHTTP_REQ_HEAD
  | EVHTTP_REQ_PUT
  | EVHTTP_REQ_DELETE
  | EVHTTP_REQ_OPTIONS
  | EVHTTP_REQ_TRACE
  | EVHTTP_REQ_CONNECT
  | EVHTTP_REQ_PATCH
  deriving DecidableEq, Repr

/-- The three strings `cmdtype` can hold (lines 107-111). -/
inductive CmdName
  | GET
  | HEAD
  | Unknown
  deriving DecidableEq, Repr

/-- What the handler reads from a `struct evhttp_request`: its command and its
URI (the URI text is not inspected, so it is kept as an identifier). -/
structure evhttp_request where
  command : evhttp_cmd_type
  uri : Nat
  deriving DecidableEq, Repr

/-- The two signals `runServer` installs a handler for (lines 209-210). -/
inductive Signal
  | SIGINT
  | SIGTERM
  deriving DecidableEq, Repr

/-- State of the accept loop, in the words of section 4.4 of the specification. -/
inductive AcceptState
  | Running
  | AcceptStopping
  | AcceptStopped
  deriving DecidableEq, Repr

/-- One external call made by the program, with its arguments and result. -/
inductive Ev
  | warn (m : Msg)
  | perror (m : Msg)
  | printf (m : Msg)
  | err (status : Int) (m : Msg)
  | malloc_client (r : Option Nat)
  | malloc_job (r : Option Nat)
  | event_base_new (r : Option Nat)
  | evhttp_new (base : Nat) (r : Option Nat)
  | evhttp_accept_socket_with_handle (http : Nat) (fd : Int) (r : Option Nat)
  | evutil_make_socket_nonblocking (fd : Int) (r : Int)
  | evhttp_set_gencb (http : Nat) (cb : Fn) (arg : Nat)
  | workqueue_add_job (job : job_t) (accepted : Bool)
  | evutil_closesocket (fd : Int)
  | evhttp_del_accept_socket (http : Option Nat) (h : evhttp_bound_socket)
  | free_handle (h : Nat)
  | evhttp_free (http : Nat)
  | event_base_free (base : Nat)
  | free_client (c : Nat)
  | free_job (j : Nat)
  | event_base_dispatch (base : Option Nat)
  | event_base_dispatch_returned (base : Option Nat)
  | printf_request (cmdtype : CmdName) (uri : Nat)
  | evhttp_send_reply (code : Nat)
  | sigaction (signal : Signal) (handler : Fn)
  | socket (r : Int)
  | bind (fd : Int) (r : Int)
  | listen (fd : Int) (r : Int)
  | setsockopt (fd : Int)
  | workqueue_init (threads : Nat) (r : Int)
  | workqueue_shutdown (seen : AcceptState)
  | event_new (base : Option Nat) (fd : Int) (cb : Fn)
  | event_add (fd : Int)
  | event_base_loopexit (base : Option Nat) (r : Int)
  | close (fd : Int)
  deriving DecidableEq, Repr

/-- Modelled from the spec: the JobQueue of workqueue.h / workqueue.c, which is
not among the sources.  Section 3: an ordered sequence of Jobs and a shutdown
flag. -/
structure workqueue_t where
  waiting_jobs : List job_t
  shutdown : Bool
  deriving DecidableEq, Repr

/-- A misuse of a resource: an object is released while it is not live (a second
`free` of the same object), or a descriptor is closed while it is not open. -/
inductive Fault
  | double_free (r : Res)
  | bad_descriptor (fd : Int)
  deriving DecidableEq, Repr

/-- Everything the program can observe or change. -/
structure World where
  next : Nat
  live : List Res
  trace : List Ev
  workqueue : workqueue_t
  evbase_accept : Option Nat
  accept : AcceptState
  fds : List Int
  faults : List Fault
  deriving DecidableEq, Repr

/-- Results of the fallible calls of one `on_accept` invocation. -/
structure AcceptEnv where
  client_alloc : Bool
  evbase_new : Bool
  evhttp_new : Bool
  accept_socket : Bool
  make_nonblocking : Int
  job_alloc : Bool
  deriving DecidableEq, Repr

/-- The constant `NUM_THREADS` (line 33). -/
def NUM_THREADS : Nat := 8

/-! ## External calls -/

/-- Append one call to the trace. -/
def World.emit (w : World) (e : Ev) : World :=
  { w with trace := w.trace ++ [e] }

/-- Take a fresh object identity and record the object as live. -/
def World.acquire (w : World) (mk : Nat → Res) : World :=
  { w with next := w.next + 1, live := mk w.next :: w.live }

/-- Release an object: it leaves the live list; releasing an object that is not
live is recorded as a fault. -/
def World.release (w : World) (r : Res) : World :=
  { w with
    live := w.live.erase r
    faults := if r ∈ w.live then w.faults else w.faults ++ [Fault.double_free r] }

/-- Close a descriptor: it leaves the open descriptors; closing a descriptor
that is not open is recorded as a fault. -/
def World.closefd (w : World) (fd : Int) : World :=
  { w with
    fds := w.fds.erase fd
    faults := if fd ∈ w.fds then w.faults else w.faults ++ [Fault.bad_descriptor fd] }

/-- The call `evutil_closesocket(fd)`. -/
def evutil_closesocket (fd : Int) (w : World) : World :=
  (w.closefd fd).emit (Ev.evutil_closesocket fd)

/-- The call `evhttp_del_accept_socket(http, handle)`.  By event2/http.h the call
closes the descriptor the handle was created for and frees the handle: "this
function closes the fd you provided", "bound_socket is an invalid pointer
after this call returns". -/
def evhttp_del_accept_socket (http : Option Nat) (h : evhttp_bound_socket) (w : World) :
    World :=
  ((w.closefd h.fd).release (Res.handle h.addr)).emit (Ev.evhttp_del_accept_socket http h)

/-- The call `socket(AF_INET, SOCK_STREAM, 0)`, returning the given result; a
non-negative result is a newly opened descriptor. -/
def socket (r : Int) (w : World) : Int × World :=
  (r, { w with fds := if r < 0 then w.fds else r :: w.fds }.emit (Ev.socket r))

/-- The call `close(fd)`. -/
def close (fd : Int) (w : World) : World :=
  (w.closefd fd).emit (Ev.close fd)

/-- The call `malloc(sizeof(*client))` -/
def malloc_client (ok : Bool) (w : World) : Option Nat × World :=
  if ok then (some w.next, (w.acquire Res.client).emit (Ev.malloc_client (some w.next)))
  else (none, w.emit (Ev.malloc_client none))

/-- The call `malloc(sizeof(*job))` -/
def malloc_job (ok : Bool) (w : World) : Option Nat × World :=
  if ok then (some w.next, (w.acquire Res.job).emit (Ev.malloc_job (some w.next)))
  else (none, w.emit (Ev.malloc_job none))

/-- The call `event_base_new()` -/
def event_base_new (ok : Bool) (w : World) : Option Nat × World :=
  if ok then (some w.next, (w.acquire Res.evbase).emit (Ev.event_base_new (some w.next)))
  else (none, w.emit (Ev.event_base_new none))

/-- The call `evhttp_new(base)` -/
def evhttp_new (ok : Bool) (base : Nat) (w : World) : Option Nat × World :=
  if ok then (some w.next, (w.acquire Res.evhttp).emit (Ev.evhttp_new base (some w.next)))
  else (none, w.emit (Ev.evhttp_new base none))

/-- The call `evhttp_accept_socket_with_handle(http, fd)`: on success the handle
references the descriptor it was given. -/
def evhttp_accept_socket_with_handle (ok : Bool) (http : Nat) (fd : Int) (w : World) :
    Option evhttp_bound_socket × World :=
  if ok then
    (some { addr := w.next, fd := fd },
      (w.acquire Res.handle).emit (Ev.evhttp_accept_socket_with_handle http fd (some w.next)))
  else (none, w.emit (Ev.evhttp_accept_socket_with_handle http fd none))

/-- The call `evhttp_bound_socket_get_fd(handle)` -/
def evhttp_bound_socket_get_fd (h : evhttp_bound_socket) : Int := h.fd

/-- The call `evutil_make_socket_nonblocking(fd)`, returning the given result. -/
def evutil_make_socket_nonblocking (r : Int) (fd : Int) (w : World) : Int × World :=
  (r, w.emit (Ev.evutil_make_socket_nonblocking fd r))

/-- The call `warn(...)` -/
def warn (m : Msg) (w : World) : World := w.emit (Ev.warn m)

/-- The call `perror(...)` -/
def perror (m : Msg) (w : World) : World := w.emit (Ev.perror m)

/-- The call `printf(...)` / `fprintf(stdout, ...)` -/
def printf (m : Msg) (w : World) : World := w.emit (Ev.printf m)

/-- Modelled from the spec: `workqueue_add_job` of workqueue.c, which is not among
the sources.  Section 4.1, `enqueue(job)`: adds a Job to the tail of the queue
if not shut down; fails with `QueueClosed` (result `false`) if shutdown has
already been signaled. -/
def workqueue_add_job (job : job_t) (w : World) : Bool × World :=
  if w.workqueue.shutdown then
    (false, w.emit (Ev.workqueue_add_job job false))
  else
    (true, { w with workqueue := { w.workqueue with
                waiting_jobs := w.workqueue.waiting_jobs ++ [job] } }.emit
              (Ev.workqueue_add_job job true))

/-- Modelled from the spec: `workqueue_shutdown` of workqueue.c, which is not
among the sources.  Section 4.1, `shutdown()`: sets the shutdown flag.  The
call is logged with the state the accept loop is in when it is issued. -/
def workqueue_shutdown (w : World) : World :=
  { w with workqueue := { w.workqueue with shutdown := true } }.emit
    (Ev.workqueue_shutdown w.accept)

/-- Modelled from the spec: `workqueue_init` of workqueue.c, which is not among
the sources.  Section 3: the queue is created once with a fixed worker count;
a non-zero result reports failure (line 246). -/
def workqueue_init (r : Int) (threads : Nat) (w : World) : Int × World :=
  (r, { w with workqueue := { waiting_jobs := [], shutdown := false } }.emit
        (Ev.workqueue_init threads r))

/-! ## The program -/

/-- Lines 62-75. -/
def closeClient (client : Option client_t) (w : World) : Option client_t × World :=
  match client with
  | none => (none, w)
  | some c =>
    match c.handle with
    | none => (some c, w)
    | some h =>
      let client_fd := evhttp_bound_socket_get_fd h
      let w := if client_fd > 0 then evutil_closesocket client_fd w else w
      let w := evhttp_del_accept_socket c.evhttp h w
      let w := (w.release (Res.handle h.addr)).emit (Ev.free_handle h.addr)
      (some { c with handle := none }, w)

/-- Lines 77-90. -/
def closeAndFreeClient (client : Option client_t) (w : World) : World :=
  match client with
  | none => w
  | some c0 =>
    match closeClient (some c0) w with
    | (none, w) => w
    | (some c, w) =>
      let w := match c.evhttp with
        | some e => (w.release (Res.evhttp e)).emit (Ev.evhttp_free e)
        | none => w
      let w := match c.evbase with
        | some b => (w.release (Res.evbase b)).emit (Ev.event_base_free b)
        | none => w
      (w.release (Res.client c.addr)).emit (Ev.free_client c.addr)

/-- The `switch` of lines 107-111. -/
def cmdtype_of (command : evhttp_cmd_type) : CmdName :=
  match command with
  | evhttp_cmd_type.EVHTTP_REQ_GET => CmdName.GET
  | evhttp_cmd_type.EVHTTP_REQ_HEAD => CmdName.HEAD
  | _ => CmdName.Unknown

/-- Lines 103-118.  The handler reads the request, prints one line and sends a
200 reply; it does not write to the client record it is given. -/
def request_on_receivd (req : evhttp_request) (_arg : client_t) (w : World) : World :=
  let cmdtype := cmdtype_of req.command
  let w := w.emit (Ev.printf_request cmdtype req.uri)
  w.emit (Ev.evhttp_send_reply 200)

/-- The call `event_base_dispatch(client->evbase)` on a client loop: the call is logged,
the registered handler runs once for each request that arrives, and the
return of the call is logged. -/
def client_dispatch (client : client_t) (reqs : List evhttp_request) (w : World) : World :=
  let w := w.emit (Ev.event_base_dispatch client.evbase)
  let w := reqs.foldl (fun w req => request_on_receivd req client w) w
  w.emit (Ev.event_base_dispatch_returned client.evbase)

/-- Lines 122-128.  `reqs` are the requests that arrive while the loop runs. -/
def server_job_function (job : job_t) (reqs : List evhttp_request) (w : World) : World :=
  let client := job.user_data
  let w := client_dispatch client reqs w
  let w := closeAndFreeClient (some client) w
  (w.release (Res.job job.addr)).emit (Ev.free_job job.addr)

/-- Lines 134-189. -/
def on_accept (fd : Int) (env : AcceptEnv) (w : World) : World :=
  match malloc_client env.client_alloc w with
  | (none, w) => warn Msg.client_alloc_failed w
  | (some c, w) =>
    let client : client_t := { addr := c, evbase := none, evhttp := none, handle := none }
    match event_base_new env.evbase_new w with
    | (none, w) => closeAndFreeClient (some client) (warn Msg.client_evbase_failed w)
    | (some b, w) =>
      let client := { client with evbase := some b }
      match evhttp_new env.evhttp_new b w with
      | (none, w) => closeAndFreeClient (some client) (warn Msg.client_evhttp_failed w)
      | (some e, w) =>
        let client := { client with evhttp := some e }
        match evhttp_accept_socket_with_handle env.accept_socket e fd w with
        | (none, w) => closeAndFreeClient (some client) (warn Msg.accept_failed w)
        | (some h, w) =>
          let client := { client with handle := some h }
          let client_fd := evhttp_bound_socket_get_fd h
          match evutil_make_socket_nonblocking env.make_nonblocking client_fd w with
          | (r, w) =>
            if r < 0 then
              closeAndFreeClient (some client) (warn Msg.client_nonblocking_failed w)
            else
              let w := w.emit (Ev.evhttp_set_gencb e Fn.request_on_receivd client.addr)
              match malloc_job env.job_alloc w with
              | (none, w) => closeAndFreeClient (some client) (warn Msg.job_alloc_failed w)
              | (some j, w) =>
                let job : job_t :=
                  { addr := j, job_function := Fn.server_job_function, user_data := client }
                (workqueue_add_job job w).2

/-- Results of the fallible calls of one `runServer` run, and the readiness
events delivered while the accept loop runs. -/
structure ServerEnv where
  socket : Int
  bind : Int
  listen : Int
  make_nonblocking : Int
  evbase_new : Bool
  workqueue_init : Int
  accepts : List AcceptEnv
  deriving DecidableEq, Repr

/-- How a run of `runServer` ends: `err(1, ...)` terminates the process, `return`
hands a value to the caller (`main` returns it as the exit status, line 296). -/
inductive Exit
  | exit (status : Int)
  | ret (value : Int)
  deriving DecidableEq, Repr

/-- The call `event_base_dispatch(evbase_accept)` on the accept loop: the loop is
running, the registered callback `on_accept` is called with the listening
descriptor once for each readiness event, and when the call returns the loop
has stopped. -/
def accept_dispatch (listenfd : Int) (accepts : List AcceptEnv) (w : World) : World :=
  let w := { w with accept := AcceptState.Running }.emit (Ev.event_base_dispatch w.evbase_accept)
  let w := accepts.foldl (fun w env => on_accept listenfd env w) w
  { w with accept := AcceptState.AcceptStopped }.emit
    (Ev.event_base_dispatch_returned w.evbase_accept)

/-- Lines 195-272. -/
def runServer (env : ServerEnv) (w : World) : Exit × World :=
  let w := w.emit (Ev.sigaction Signal.SIGINT Fn.sighandler)
  let w := w.emit (Ev.sigaction Signal.SIGTERM Fn.sighandler)
  match socket env.socket w with
  | (listenfd, w) =>
  if listenfd < 0 then (Exit.exit 1, w.emit (Ev.err 1 Msg.socket_failed))
  else
    let w := w.emit (Ev.bind listenfd env.bind)
    if env.bind < 0 then (Exit.exit 1, w.emit (Ev.err 1 Msg.bind_failed))
    else
      let w := w.emit (Ev.listen listenfd env.listen)
      if env.listen < 0 then (Exit.exit 1, w.emit (Ev.err 1 Msg.listen_failed))
      else
        let w := w.emit (Ev.setsockopt listenfd)
        match evutil_make_socket_nonblocking env.make_nonblocking listenfd w with
        | (r, w) =>
          if r < 0 then (Exit.exit 1, w.emit (Ev.err 1 Msg.server_nonblocking_failed))
          else
            match event_base_new env.evbase_new w with
            | (none, w) =>
              let w := { w with evbase_accept := none }
              let w := perror Msg.accept_evbase_failed w
              let w := close listenfd w
              (Exit.ret 1, w)
            | (some b, w) =>
              let w := { w with evbase_accept := some b }
              match workqueue_init env.workqueue_init NUM_THREADS w with
              | (r, w) =>
                if r ≠ 0 then
                  let w := perror Msg.workqueue_failed w
                  let w := close listenfd w
                  let w := workqueue_shutdown w
                  (Exit.ret 1, w)
                else
                  let w := w.emit (Ev.event_new w.evbase_accept listenfd Fn.on_accept)
                  let w := w.emit (Ev.event_add listenfd)
                  let w := printf Msg.server_running w
                  let w := accept_dispatch listenfd env.accepts w
                  let w := (w.release (Res.evbase b)).emit (Ev.event_base_free b)
                  let w := { w with evbase_accept := none }
                  let w := close listenfd w
                  let w := printf Msg.server_shutdown w
                  (Exit.ret 0, w)

/-- The call `event_base_loopexit(evbase_accept, NULL)`: result 0 registers the stop
request (a running loop becomes stopping); any other result reports an error
and leaves the loop as it was. -/
def event_base_loopexit (r : Int) (w : World) : Int × World :=
  (r, { w with accept :=
          if r = 0 ∧ w.accept = AcceptState.Running then AcceptState.AcceptStopping
          else w.accept }.emit (Ev.event_base_loopexit w.evbase_accept r))

/-- Lines 278-285. -/
def killServer (loopexit_result : Int) (w : World) : World :=
  let w := printf Msg.stopping_listener w
  match event_base_loopexit loopexit_result w with
  | (r, w) =>
    let w := if r ≠ 0 then perror Msg.loopexit_failed w else w
    let w := printf Msg.stopping_workers w
    workqueue_shutdown w

/-! ## Observations on traces, and the inputs used as examples -/

/-- The calls logged between two worlds. -/
def World.since (w w1 : World) : List Ev := w1.trace.drop w.trace.length

/-- The object a call releases, if it is a release call. -/
def Ev.releases : Ev → Option Res
  | Ev.evhttp_del_accept_socket _ h => some (Res.handle h.addr)
  | Ev.free_handle h => some (Res.handle h)
  | Ev.evhttp_free e => some (Res.evhttp e)
  | Ev.event_base_free b => some (Res.evbase b)
  | Ev.free_client c => some (Res.client c)
  | Ev.free_job j => some (Res.job j)
  | _ => none

/-- The object a call acquires, if it is a successful acquisition. -/
def Ev.acquires : Ev → Option Res
  | Ev.malloc_client (some c) => some (Res.client c)
  | Ev.malloc_job (some j) => some (Res.job j)
  | Ev.event_base_new (some b) => some (Res.evbase b)
  | Ev.evhttp_new _ (some e) => some (Res.evhttp e)
  | Ev.evhttp_accept_socket_with_handle _ _ (some h) => some (Res.handle h)
  | _ => none

/-- The descriptor a call closes, if it closes one. -/
def Ev.closes : Ev → Option Int
  | Ev.evutil_closesocket fd => some fd
  | Ev.evhttp_del_accept_socket _ h => some h.fd
  | Ev.close fd => some fd
  | _ => none

/-- The descriptors closed by a sequence of calls, in order. -/
def closedDescriptors (t : List Ev) : List Int := t.filterMap Ev.closes

/-- The objects released by a sequence of calls, in order. -/
def released (t : List Ev) : List Res := t.filterMap Ev.releases

/-- The objects acquired by a sequence of calls, in order. -/
def acquired (t : List Ev) : List Res := t.filterMap Ev.acquires

/-- Whether a call is an enqueue on the work queue. -/
def Ev.isAddJob : Ev → Bool
  | Ev.workqueue_add_job _ _ => true
  | _ => false

/-- Whether a call is the accept call `evhttp_accept_socket_with_handle`. -/
def Ev.isAccept : Ev → Bool
  | Ev.evhttp_accept_socket_with_handle _ _ _ => true
  | _ => false

/-- Every construction step of an `on_accept` invocation succeeds. -/
def AcceptEnv.allOk (env : AcceptEnv) : Prop :=
  env.client_alloc = true ∧ env.evbase_new = true ∧ env.evhttp_new = true ∧
    env.accept_socket = true ∧ ¬ env.make_nonblocking < 0 ∧ env.job_alloc = true

instance (env : AcceptEnv) : Decidable env.allOk := by
  unfold AcceptEnv.allOk; infer_instance

/-- A world at process start: nothing allocated, nothing logged, an open and
empty queue. -/
def World.start : World :=
  { next := 0, live := [], trace := [], workqueue := ⟨[], false⟩, evbase_accept := none,
    accept := AcceptState.Running, fds := [], faults := [] }

/-- A world in which the listening socket, descriptor 5, is open. -/
def World.listening : World :=
  { World.start with fds := [5] }

/-- A world whose queue has already been shut down. -/
def World.closed : World :=
  { World.start with workqueue := ⟨[], true⟩ }

/-- A world in which one client record (0) with its event base (1), evhttp (2)
and handle (3) is live, the handle being bound to the open descriptor `fd`. -/
def World.bound (fd : Int) : World :=
  { World.start with
    next := 4
    live := [Res.handle 3, Res.evhttp 2, Res.evbase 1, Res.client 0]
    fds := [fd] }

/-- The client record of `World.bound fd`. -/
def boundClient (fd : Int) : client_t :=
  { addr := 0, evbase := some 1, evhttp := some 2, handle := some ⟨3, fd⟩ }

/-- An invocation of `on_accept` in which making the socket non-blocking fails. -/
def AcceptEnv.nonblockingFails : AcceptEnv := ⟨true, true, true, true, -1, true⟩

/-- An invocation of `on_accept` in which every step succeeds. -/
def AcceptEnv.success : AcceptEnv := ⟨true, true, true, true, 0, true⟩

/-- The calls made by the client loop while it serves the given requests. -/
def loopCalls : List evhttp_request → List Ev
  | [] => []
  | req :: rest =>
    Ev.printf_request (cmdtype_of req.command) req.uri :: Ev.evhttp_send_reply 200 ::
      loopCalls rest

/-- The calls of the teardown of a bound socket: `evutil_closesocket` when the
descriptor is positive, then `evhttp_del_accept_socket`, then `free`. -/
def closeCalls (http : Nat) (handle : Nat) (fd : Int) : List Ev :=
  (if 0 < fd then [Ev.evutil_closesocket fd] else []) ++
    [Ev.evhttp_del_accept_socket (some http) ⟨handle, fd⟩, Ev.free_handle handle]

/-- The client record built by a fully successful `on_accept` in world `w` for
descriptor `fd`. -/
def builtClient (fd : Int) (w : World) : client_t :=
  { addr := w.next, evbase := some (w.next + 1), evhttp := some (w.next + 2),
    handle := some { addr := w.next + 3, fd := fd } }

/-- The job built by a fully successful `on_accept` in world `w` for descriptor
`fd`. -/
def builtJob (fd : Int) (w : World) : job_t :=
  { addr := w.next + 4, job_function := Fn.server_job_function, user_data := builtClient fd w }

/-- A process-level startup step fails: the socket cannot be created, bound,
listened on or made non-blocking, the accept event base cannot be created, or
the work queue cannot be initialised. -/
def ServerEnv.startupFails (env : ServerEnv) : Prop :=
  env.socket < 0 ∨ env.bind < 0 ∨ env.listen < 0 ∨ env.make_nonblocking < 0 ∨
    env.evbase_new = false ∨ env.workqueue_init ≠ 0

instance (env : ServerEnv) : Decidable env.startupFails := by
  unfold ServerEnv.startupFails; infer_instance

/-- Whether a call is `close`. -/
def Ev.isClose : Ev → Bool
  | Ev.close _ => true
  | _ => false

/-- Whether a call reports an error (`err` or `perror`). -/
def Ev.isErrorReport : Ev → Bool
  | Ev.err _ _ => true
  | Ev.perror _ => true
  | _ => false

/-- Whether a call registers the accept event or enters or leaves an event loop. -/
def Ev.isLoopCall : Ev → Bool
  | Ev.event_new _ _ _ => true
  | Ev.event_add _ => true
  | Ev.event_base_dispatch _ => true
  | Ev.event_base_dispatch_returned _ => true
  | _ => false

/-- A run of two clients: the listening socket is descriptor 5, every startup
step succeeds, and two readiness events are delivered, each fully successful. -/
def ServerEnv.twoClients : ServerEnv :=
  { socket := 5, bind := 0, listen := 0, make_nonblocking := 0, evbase_new := true,
    workqueue_init := 0, accepts := [AcceptEnv.success, AcceptEnv.success] }

/-- The calls of `runServer` up to and including the creation of the socket. -/
def socketCalls (env : ServerEnv) : List Ev :=
  [Ev.sigaction Signal.SIGINT Fn.sighandler, Ev.sigaction Signal.SIGTERM Fn.sighandler,
    Ev.socket env.socket]

/-- The calls of `runServer` up to the point where the accept loop is entered,
when every startup step succeeds; `b` is the accept event base. -/
def startupCalls (env : ServerEnv) (b : Nat) : List Ev :=
  socketCalls env ++
    [Ev.bind env.socket env.bind, Ev.listen env.socket env.listen, Ev.setsockopt env.socket,
      Ev.evutil_make_socket_nonblocking env.socket env.make_nonblocking,
      Ev.event_base_new (some b), Ev.workqueue_init NUM_THREADS env.workqueue_init,
      Ev.event_new (some b) env.socket Fn.on_accept, Ev.event_add env.socket,
      Ev.printf Msg.server_running]

/-- A run in which the work queue cannot be initialised. -/
def ServerEnv.queueFails : ServerEnv :=
  { ServerEnv.twoClients with workqueue_init := 1 }

/-! ## Teardown -/

/-- The calls logged between `w` and a world whose trace extends the trace of `w`. -/
theorem since_of_trace (w w1 : World) (t : List Ev) (h : w1.trace = w.trace ++ t) :
    w.since w1 = t := by
  simp [World.since, h]

/-- C9 at a client bound to the open descriptor 5 and at one bound to the open
descriptor 0: in both cases `closeClient` sets the handle to NULL, but the
descriptor is closed by `evhttp_del_accept_socket` whatever its value
(descriptor 0 is closed, descriptor 5 is closed a second time after
`evutil_closesocket`), and the handle is released twice, by
`evhttp_del_accept_socket` and again by `free`. -/
theorem closeClient_releases_handle_twice :
    (closeClient (some (boundClient 5)) (World.bound 5)).1 =
      some { boundClient 5 with handle := none } ∧
    (World.bound 5).since (closeClient (some (boundClient 5)) (World.bound 5)).2 =
      [Ev.evutil_closesocket 5, Ev.evhttp_del_accept_socket (some 2) ⟨3, 5⟩, Ev.free_handle 3] ∧
    closedDescriptors
      ((World.bound 5).since (closeClient (some (boundClient 5)) (World.bound 5)).2) = [5, 5] ∧
    released ((World.bound 5).since (closeClient (some (boundClient 5)) (World.bound 5)).2) =
      [Res.handle 3, Res.handle 3] ∧
    (closeClient (some (boundClient 5)) (World.bound 5)).2.faults =
      [Fault.bad_descriptor 5, Fault.double_free (Res.handle 3)] ∧
    (World.bound 0).since (closeClient (some (boundClient 0)) (World.bound 0)).2 =
      [Ev.evhttp_del_accept_socket (some 2) ⟨3, 0⟩, Ev.free_handle 3] ∧
    closedDescriptors
      ((World.bound 0).since (closeClient (some (boundClient 0)) (World.bound 0)).2) = [0] ∧
    (World.bound 0).fds = [0] ∧
    (closeClient (some (boundClient 0)) (World.bound 0)).2.fds = [] ∧
    released ((World.bound 0).since (closeClient (some (boundClient 0)) (World.bound 0)).2) =
      [Res.handle 3, Res.handle 3] ∧
    (closeClient (some (boundClient 0)) (World.bound 0)).2.faults =
      [Fault.double_free (Res.handle 3)] := by
  decide

/-! ## The accept path -/

/-- Path 1 of `on_accept`: the client record cannot be allocated. -/
theorem on_accept_client_alloc_fails (fd : Int) (env : AcceptEnv) (w : World)
    (h1 : env.client_alloc = false) :
    on_accept fd env w =
      { w with trace := w.trace ++ [Ev.malloc_client none, Ev.warn Msg.client_alloc_failed] } := by
  simp [on_accept, closeAndFreeClient, closeClient, malloc_client, malloc_job, event_base_new,
    evhttp_new, evhttp_accept_socket_with_handle, evutil_make_socket_nonblocking,
    evhttp_bound_socket_get_fd, evutil_closesocket, evhttp_del_accept_socket, warn,
    workqueue_add_job, World.emit, World.release, World.closefd, World.acquire, h1]

/-- Path 2 of `on_accept`: the event base cannot be created. -/
theorem on_accept_evbase_fails (fd : Int) (env : AcceptEnv) (w : World)
    (h1 : env.client_alloc = true) (h2 : env.evbase_new = false) :
    on_accept fd env w =
      { w with
        next := w.next + 1
        trace := w.trace ++ [Ev.malloc_client (some w.next), Ev.event_base_new none,
          Ev.warn Msg.client_evbase_failed, Ev.free_client w.next] } := by
  simp [on_accept, closeAndFreeClient, closeClient, malloc_client, malloc_job, event_base_new,
    evhttp_new, evhttp_accept_socket_with_handle, evutil_make_socket_nonblocking,
    evhttp_bound_socket_get_fd, evutil_closesocket, evhttp_del_accept_socket, warn,
    workqueue_add_job, World.emit, World.release, World.closefd, World.acquire, h1, h2]

/-- Path 3 of `on_accept`: the evhttp cannot be created. -/
theorem on_accept_evhttp_fails (fd : Int) (env : AcceptEnv) (w : World)
    (h1 : env.client_alloc = true) (h2 : env.evbase_new = true) (h3 : env.evhttp_new = false) :
    on_accept fd env w =
      { w with
        next := w.next + 2
        trace := w.trace ++ [Ev.malloc_client (some w.next), Ev.event_base_new (some (w.next + 1)),
          Ev.evhttp_new (w.next + 1) none, Ev.warn Msg.client_evhttp_failed,
          Ev.event_base_free (w.next + 1), Ev.free_client w.next] } := by
  simp [on_accept, closeAndFreeClient, closeClient, malloc_client, malloc_job, event_base_new,
    evhttp_new, evhttp_accept_socket_with_handle, evutil_make_socket_nonblocking,
    evhttp_bound_socket_get_fd, evutil_closesocket, evhttp_del_accept_socket, warn,
    workqueue_add_job, World.emit, World.release, World.closefd, World.acquire, h1, h2, h3]

/-- Path 4 of `on_accept`: the accept call returns NULL. -/
theorem on_accept_accept_fails (fd : Int) (env : AcceptEnv) (w : World)
    (h1 : env.client_alloc = true) (h2 : env.evbase_new = true) (h3 : env.evhttp_new = true)
    (h4 : env.accept_socket = false) :
    on_accept fd env w =
      { w with
        next := w.next + 3
        trace := w.trace ++ [Ev.malloc_client (some w.next), Ev.event_base_new (some (w.next + 1)),
          Ev.evhttp_new (w.next + 1) (some (w.next + 2)),
          Ev.evhttp_accept_socket_with_handle (w.next + 2) fd none, Ev.warn Msg.accept_failed,
          Ev.evhttp_free (w.next + 2), Ev.event_base_free (w.next + 1), Ev.free_client w.next] } := by
  simp [on_accept, closeAndFreeClient, closeClient, malloc_client, malloc_job, event_base_new,
    evhttp_new, evhttp_accept_socket_with_handle, evutil_make_socket_nonblocking,
    evhttp_bound_socket_get_fd, evutil_closesocket, evhttp_del_accept_socket, warn,
    workqueue_add_job, World.emit, World.release, World.closefd, World.acquire, h1, h2, h3, h4]

/-- Path 5 of `on_accept`: the socket cannot be made non-blocking.  The calls
made, and the parts of the world the path leaves alone. -/
theorem on_accept_nonblocking_fails (fd : Int) (env : AcceptEnv) (w : World)
    (h1 : env.client_alloc = true) (h2 : env.evbase_new = true) (h3 : env.evhttp_new = true)
    (h4 : env.accept_socket = true) (h5 : env.make_nonblocking < 0) :
    (on_accept fd env w).trace =
      w.trace ++ ([Ev.malloc_client (some w.next), Ev.event_base_new (some (w.next + 1)),
        Ev.evhttp_new (w.next + 1) (some (w.next + 2)),
        Ev.evhttp_accept_socket_with_handle (w.next + 2) fd (some (w.next + 3)),
        Ev.evutil_make_socket_nonblocking fd env.make_nonblocking,
        Ev.warn Msg.client_nonblocking_failed] ++ closeCalls (w.next + 2) (w.next + 3) fd ++
        [Ev.evhttp_free (w.next + 2), Ev.event_base_free (w.next + 1),
          Ev.free_client w.next]) ∧
    (on_accept fd env w).evbase_accept = w.evbase_accept ∧
    (on_accept fd env w).accept = w.accept ∧
    (on_accept fd env w).workqueue = w.workqueue := by
  by_cases hfd : 0 < fd <;>
  simp [on_accept, closeAndFreeClient, closeClient, malloc_client, malloc_job, event_base_new,
    evhttp_new, evhttp_accept_socket_with_handle, evutil_make_socket_nonblocking,
    evhttp_bound_socket_get_fd, evutil_closesocket, evhttp_del_accept_socket, warn,
    workqueue_add_job, World.emit, World.release, World.closefd, World.acquire, closeCalls, h1, h2, h3, h4, h5, hfd]

/-- Path 6 of `on_accept`: the job cannot be allocated.  The calls made, and the
parts of the world the path leaves alone. -/
theorem on_accept_job_alloc_fails (fd : Int) (env : AcceptEnv) (w : World)
    (h1 : env.client_alloc = true) (h2 : env.evbase_new = true) (h3 : env.evhttp_new = true)
    (h4 : env.accept_socket = true) (h5 : ¬ env.make_nonblocking < 0)
    (h6 : env.job_alloc = false) :
    (on_accept fd env w).trace =
      w.trace ++ ([Ev.malloc_client (some w.next), Ev.event_base_new (some (w.next + 1)),
        Ev.evhttp_new (w.next + 1) (some (w.next + 2)),
        Ev.evhttp_accept_socket_with_handle (w.next + 2) fd (some (w.next + 3)),
        Ev.evutil_make_socket_nonblocking fd env.make_nonblocking,
        Ev.evhttp_set_gencb (w.next + 2) Fn.request_on_receivd w.next,
        Ev.malloc_job none, Ev.warn Msg.job_alloc_failed] ++
        closeCalls (w.next + 2) (w.next + 3) fd ++
        [Ev.evhttp_free (w.next + 2), Ev.event_base_free (w.next + 1),
          Ev.free_client w.next]) ∧
    (on_accept fd env w).evbase_accept = w.evbase_accept ∧
    (on_accept fd env w).accept = w.accept ∧
    (on_accept fd env w).workqueue = w.workqueue := by
  by_cases hfd : 0 < fd <;>
  simp [on_accept, closeAndFreeClient, closeClient, malloc_client, malloc_job, event_base_new,
    evhttp_new, evhttp_accept_socket_with_handle, evutil_make_socket_nonblocking,
    evhttp_bound_socket_get_fd, evutil_closesocket, evhttp_del_accept_socket, warn,
    workqueue_add_job, World.emit, World.release, World.closefd, World.acquire, closeCalls, h1, h2, h3, h4, h5, h6, hfd]

/-- Path 7 of `on_accept`: every construction step succeeds. -/
theorem on_accept_all_succeed (fd : Int) (env : AcceptEnv) (w : World) (hok : env.allOk) :
    on_accept fd env w =
      { w with
        next := w.next + 5
        live := Res.job (w.next + 4) :: Res.handle (w.next + 3) :: Res.evhttp (w.next + 2) ::
          Res.evbase (w.next + 1) :: Res.client w.next :: w.live
        trace := w.trace ++ [Ev.malloc_client (some w.next), Ev.event_base_new (some (w.next + 1)),
          Ev.evhttp_new (w.next + 1) (some (w.next + 2)),
          Ev.evhttp_accept_socket_with_handle (w.next + 2) fd (some (w.next + 3)),
          Ev.evutil_make_socket_nonblocking fd env.make_nonblocking,
          Ev.evhttp_set_gencb (w.next + 2) Fn.request_on_receivd w.next,
          Ev.malloc_job (some (w.next + 4)),
          Ev.workqueue_add_job (builtJob fd w) (!w.workqueue.shutdown)]
        workqueue :=
          { w.workqueue with
            waiting_jobs := w.workqueue.waiting_jobs ++
              (if w.workqueue.shutdown then [] else [builtJob fd w]) } } := by
  obtain ⟨h1, h2, h3, h4, h5, h6⟩ := hok
  obtain ⟨n, l, t, ⟨q, sd⟩, b, st, fds, fl⟩ := w
  cases sd <;>
  simp [on_accept, closeAndFreeClient, closeClient, malloc_client, malloc_job, event_base_new,
    evhttp_new, evhttp_accept_socket_with_handle, evutil_make_socket_nonblocking,
    evhttp_bound_socket_get_fd, evutil_closesocket, evhttp_del_accept_socket, warn,
    workqueue_add_job, World.emit, World.release, World.closefd, World.acquire, builtJob, builtClient, h1, h2, h3, h4, h5, h6]

/-- The seven paths of `on_accept`, by the first step that fails. -/
theorem accept_paths (env : AcceptEnv) :
    env.client_alloc = false ∨
    (env.client_alloc = true ∧ env.evbase_new = false) ∨
    (env.client_alloc = true ∧ env.evbase_new = true ∧ env.evhttp_new = false) ∨
    (env.client_alloc = true ∧ env.evbase_new = true ∧ env.evhttp_new = true ∧
      env.accept_socket = false) ∨
    (env.client_alloc = true ∧ env.evbase_new = true ∧ env.evhttp_new = true ∧
      env.accept_socket = true ∧ env.make_nonblocking < 0) ∨
    (env.client_alloc = true ∧ env.evbase_new = true ∧ env.evhttp_new = true ∧
      env.accept_socket = true ∧ ¬ env.make_nonblocking < 0 ∧ env.job_alloc = false) ∨
    env.allOk := by
  obtain ⟨ca, eb, eh, ac, nb, ja⟩ := env
  by_cases hnb : nb < 0 <;>
    cases ca <;> cases eb <;> cases eh <;> cases ac <;> cases ja <;>
    simp [AcceptEnv.allOk, hnb]

/-- C1 at an invocation on the listening socket 5 in which making the socket
non-blocking fails: no job is enqueued, but the handle acquired in the attempt
is released twice (by `evhttp_del_accept_socket` and again by `free`), and
the teardown closes descriptor 5, the listening socket, which the invocation
did not open, so the open descriptors after the call are not those before. -/
theorem on_accept_failure_releases_handle_twice :
    ¬ AcceptEnv.nonblockingFails.allOk ∧
    (World.listening.since
      (on_accept 5 AcceptEnv.nonblockingFails World.listening)).countP Ev.isAddJob = 0 ∧
    acquired (World.listening.since (on_accept 5 AcceptEnv.nonblockingFails World.listening)) =
      [Res.client 0, Res.evbase 1, Res.evhttp 2, Res.handle 3] ∧
    released (World.listening.since (on_accept 5 AcceptEnv.nonblockingFails World.listening)) =
      [Res.handle 3, Res.handle 3, Res.evhttp 2, Res.evbase 1, Res.client 0] ∧
    (on_accept 5 AcceptEnv.nonblockingFails World.listening).faults =
      [Fault.bad_descriptor 5, Fault.double_free (Res.handle 3)] ∧
    closedDescriptors
      (World.listening.since (on_accept 5 AcceptEnv.nonblockingFails World.listening)) =
      [5, 5] ∧
    World.listening.fds = [5] ∧
    (on_accept 5 AcceptEnv.nonblockingFails World.listening).fds = [] := by
  decide

/-- C8 fails as stated: when the client record cannot be allocated, `on_accept`
returns without making any accept call. -/
theorem on_accept_without_accept_call :
    (World.start.since
      (on_accept 5 { AcceptEnv.success with client_alloc := false } World.start)).countP
        Ev.isAccept = 0 := by
  decide

/-- C8, amended: every invocation of `on_accept` makes at most one accept call,
on the descriptor of the event: exactly one when the client record, the event
base and the evhttp were created, none otherwise; and it enqueues at most one
job. -/
theorem on_accept_accept_count (fd : Int) (env : AcceptEnv) (w : World) :
    (w.since (on_accept fd env w)).countP Ev.isAccept =
      (if env.client_alloc = true ∧ env.evbase_new = true ∧ env.evhttp_new = true
        then 1 else 0) ∧
    (∀ http fd1 r, Ev.evhttp_accept_socket_with_handle http fd1 r ∈ w.since (on_accept fd env w)
      → fd1 = fd) ∧
    (w.since (on_accept fd env w)).countP Ev.isAddJob ≤ 1 := by
  rcases accept_paths env with h1 | ⟨h1, h2⟩ | ⟨h1, h2, h3⟩ | ⟨h1, h2, h3, h4⟩ |
    ⟨h1, h2, h3, h4, h5⟩ | ⟨h1, h2, h3, h4, h5, h6⟩ | hok
  · rw [on_accept_client_alloc_fails fd env w h1]
    simp [World.since, released, acquired, Ev.releases, Ev.acquires, Ev.isAddJob, Ev.isAccept, closeCalls, h1]
  · rw [on_accept_evbase_fails fd env w h1 h2]
    simp [World.since, released, acquired, Ev.releases, Ev.acquires, Ev.isAddJob, Ev.isAccept, closeCalls, h1, h2]
  · rw [on_accept_evhttp_fails fd env w h1 h2 h3]
    simp [World.since, released, acquired, Ev.releases, Ev.acquires, Ev.isAddJob, Ev.isAccept, closeCalls, h1, h2, h3]
  · rw [on_accept_accept_fails fd env w h1 h2 h3 h4]
    simp [World.since, released, acquired, Ev.releases, Ev.acquires, Ev.isAddJob, Ev.isAccept, closeCalls, h1, h2, h3]
    intro _ _ _ _ hh _
    exact hh
  · rw [since_of_trace w _ _ (on_accept_nonblocking_fails fd env w h1 h2 h3 h4 h5).1]
    by_cases hfd : 0 < fd <;>
      simp [Ev.isAddJob, Ev.isAccept, closeCalls, hfd, h1, h2, h3] <;>
      (intro _ _ _ _ hh _; exact hh)
  · rw [since_of_trace w _ _ (on_accept_job_alloc_fails fd env w h1 h2 h3 h4 h5 h6).1]
    by_cases hfd : 0 < fd <;>
      simp [Ev.isAddJob, Ev.isAccept, closeCalls, hfd, h1, h2, h3] <;>
      (intro _ _ _ _ hh _; exact hh)
  · rw [on_accept_all_succeed fd env w hok]
    obtain ⟨h1, h2, h3, -⟩ := hok
    simp [World.since, released, acquired, Ev.releases, Ev.acquires, Ev.isAddJob, Ev.isAccept, closeCalls, h1, h2, h3]
    intro _ _ _ _ hh _
    exact hh

/-- C5: when every construction step succeeds, `on_accept` calls
`workqueue_add_job` exactly once, with a job whose function is
`server_job_function` and whose user data is the client allocated in this
invocation; that client holds an event base created in this invocation under an
identity not handed out before, an evhttp created on that event base, a
non-null handle bound to the event descriptor, and `request_on_receivd` is
registered on the evhttp with the client as its argument. -/
theorem on_accept_success_enqueues_once (fd : Int) (env : AcceptEnv) (w : World)
    (hok : env.allOk) :
    ∃ c b e h j accepted,
      (w.since (on_accept fd env w)).filter Ev.isAddJob =
        [Ev.workqueue_add_job ⟨j, Fn.server_job_function, ⟨c, some b, some e, some h⟩⟩
          accepted] ∧
      Ev.malloc_client (some c) ∈ w.since (on_accept fd env w) ∧
      Ev.event_base_new (some b) ∈ w.since (on_accept fd env w) ∧
      w.next ≤ b ∧
      Ev.evhttp_new b (some e) ∈ w.since (on_accept fd env w) ∧
      Ev.evhttp_accept_socket_with_handle e fd (some h.addr) ∈ w.since (on_accept fd env w) ∧
      Ev.evhttp_set_gencb e Fn.request_on_receivd c ∈ w.since (on_accept fd env w) ∧
      (accepted = true → (on_accept fd env w).workqueue.waiting_jobs =
        w.workqueue.waiting_jobs ++ [⟨j, Fn.server_job_function, ⟨c, some b, some e, some h⟩⟩]) := by
  refine ⟨w.next, w.next + 1, w.next + 2, ⟨w.next + 3, fd⟩, w.next + 4, !w.workqueue.shutdown, ?_⟩
  rw [on_accept_all_succeed fd env w hok]
  simp [World.since, released, acquired, Ev.releases, Ev.acquires, Ev.isAddJob, Ev.isAccept, closeCalls, builtJob, builtClient]

/-- Witness for C5 at the start world. -/
theorem on_accept_success_enqueues_once_witness :
    AcceptEnv.success.allOk ∧
    ∃ c b e h j accepted,
      (World.start.since (on_accept 5 AcceptEnv.success World.start)).filter Ev.isAddJob =
        [Ev.workqueue_add_job ⟨j, Fn.server_job_function, ⟨c, some b, some e, some h⟩⟩
          accepted] ∧
      Ev.malloc_client (some c) ∈ World.start.since (on_accept 5 AcceptEnv.success World.start) ∧
      Ev.event_base_new (some b) ∈ World.start.since (on_accept 5 AcceptEnv.success World.start) ∧
      World.start.next ≤ b ∧
      Ev.evhttp_new b (some e) ∈ World.start.since (on_accept 5 AcceptEnv.success World.start) ∧
      Ev.evhttp_accept_socket_with_handle e 5 (some h.addr) ∈
        World.start.since (on_accept 5 AcceptEnv.success World.start) ∧
      Ev.evhttp_set_gencb e Fn.request_on_receivd c ∈
        World.start.since (on_accept 5 AcceptEnv.success World.start) ∧
      (accepted = true → (on_accept 5 AcceptEnv.success World.start).workqueue.waiting_jobs =
        World.start.workqueue.waiting_jobs ++
          [⟨j, Fn.server_job_function, ⟨c, some b, some e, some h⟩⟩]) :=
  ⟨by decide, on_accept_success_enqueues_once 5 AcceptEnv.success World.start (by decide)⟩

/-- C2 fails as stated: with the queue already shut down the enqueue is refused,
and `on_accept` returns with the client record, event base, evhttp, handle and
job all still live and nothing released. -/
theorem on_accept_queue_closed_no_teardown :
    (World.closed.since (on_accept 5 AcceptEnv.success World.closed)).filter Ev.isAddJob =
      [Ev.workqueue_add_job ⟨4, Fn.server_job_function, ⟨0, some 1, some 2, some ⟨3, 5⟩⟩⟩ false] ∧
    released (World.closed.since (on_accept 5 AcceptEnv.success World.closed)) = [] ∧
    (on_accept 5 AcceptEnv.success World.closed).live =
      [Res.job 4, Res.handle 3, Res.evhttp 2, Res.evbase 1, Res.client 0] ∧
    (on_accept 5 AcceptEnv.success World.closed).live ≠ World.closed.live := by
  decide

/-- C2, amended: when every construction step succeeds and the queue has
already been shut down, the enqueue is the last call of `on_accept` and it is
refused; `on_accept` releases nothing, so the job, handle, evhttp, event base
and client record built in this invocation all remain live, and the queue is
unchanged. -/
theorem on_accept_queue_closed_keeps_runtime (fd : Int) (env : AcceptEnv) (w : World)
    (hok : env.allOk) (hclosed : w.workqueue.shutdown = true) :
    (∃ job, (w.since (on_accept fd env w)).getLast? = some (Ev.workqueue_add_job job false)) ∧
    released (w.since (on_accept fd env w)) = [] ∧
    (on_accept fd env w).live =
      Res.job (w.next + 4) :: Res.handle (w.next + 3) :: Res.evhttp (w.next + 2) ::
        Res.evbase (w.next + 1) :: Res.client w.next :: w.live ∧
    acquired (w.since (on_accept fd env w)) =
      [Res.client w.next, Res.evbase (w.next + 1), Res.evhttp (w.next + 2),
        Res.handle (w.next + 3), Res.job (w.next + 4)] ∧
    (on_accept fd env w).workqueue = w.workqueue := by
  rw [on_accept_all_succeed fd env w hok]
  obtain ⟨n, l, t, ⟨q, sd⟩, b, st, fds, fl⟩ := w
  simp only at hclosed
  subst hclosed
  simp [World.since, released, acquired, Ev.releases, Ev.acquires, Ev.isAddJob, Ev.isAccept, closeCalls, builtJob, builtClient]

/-- Witness for the amended C2 at the world with a closed queue. -/
theorem on_accept_queue_closed_keeps_runtime_witness :
    AcceptEnv.success.allOk ∧ World.closed.workqueue.shutdown = true ∧
    (∃ job, (World.closed.since (on_accept 5 AcceptEnv.success World.closed)).getLast? =
      some (Ev.workqueue_add_job job false)) ∧
    released (World.closed.since (on_accept 5 AcceptEnv.success World.closed)) = [] ∧
    (on_accept 5 AcceptEnv.success World.closed).live =
      Res.job (World.closed.next + 4) :: Res.handle (World.closed.next + 3) ::
        Res.evhttp (World.closed.next + 2) :: Res.evbase (World.closed.next + 1) ::
        Res.client World.closed.next :: World.closed.live ∧
    acquired (World.closed.since (on_accept 5 AcceptEnv.success World.closed)) =
      [Res.client World.closed.next, Res.evbase (World.closed.next + 1),
        Res.evhttp (World.closed.next + 2), Res.handle (World.closed.next + 3),
        Res.job (World.closed.next + 4)] ∧
    (on_accept 5 AcceptEnv.success World.closed).workqueue = World.closed.workqueue :=
  ⟨by decide, rfl,
    on_accept_queue_closed_keeps_runtime 5 AcceptEnv.success World.closed (by decide) rfl⟩

/-! ## The job action -/

/-- The client loop only appends the handler calls to the trace. -/
theorem client_loop_calls (client : client_t) (reqs : List evhttp_request) (w : World) :
    reqs.foldl (fun w req => request_on_receivd req client w) w =
      { w with trace := w.trace ++ loopCalls reqs } := by
  induction reqs generalizing w with
  | nil => simp [loopCalls]
  | cons req rest ih =>
    rw [List.foldl_cons, ih]
    simp [request_on_receivd, World.emit, loopCalls]

/-- The handler calls release nothing. -/
theorem released_loopCalls (reqs : List evhttp_request) : released (loopCalls reqs) = [] := by
  induction reqs with
  | nil => rfl
  | cons req rest ih =>
    simpa [released, loopCalls, Ev.releases] using ih

/-- C4 at the job enqueued by a fully successful `on_accept` on the listening
socket 5, run while one GET request arrives: the action runs the client loop
and, after `event_base_dispatch` has returned, releases the objects in the
order handle, evhttp, event base, client record, job; but the handle is
released twice, by `evhttp_del_accept_socket` and again by `free`. -/
theorem server_job_function_releases_handle_twice :
    (on_accept 5 AcceptEnv.success World.listening).workqueue.waiting_jobs =
      [⟨4, Fn.server_job_function, boundClient 5⟩] ∧
    (on_accept 5 AcceptEnv.success World.listening).since
      (server_job_function ⟨4, Fn.server_job_function, boundClient 5⟩
        [⟨evhttp_cmd_type.EVHTTP_REQ_GET, 1⟩] (on_accept 5 AcceptEnv.success World.listening)) =
      [Ev.event_base_dispatch (some 1), Ev.printf_request CmdName.GET 1,
        Ev.evhttp_send_reply 200, Ev.event_base_dispatch_returned (some 1),
        Ev.evutil_closesocket 5, Ev.evhttp_del_accept_socket (some 2) ⟨3, 5⟩,
        Ev.free_handle 3, Ev.evhttp_free 2, Ev.event_base_free 1, Ev.free_client 0,
        Ev.free_job 4] ∧
    released ((on_accept 5 AcceptEnv.success World.listening).since
      (server_job_function ⟨4, Fn.server_job_function, boundClient 5⟩
        [⟨evhttp_cmd_type.EVHTTP_REQ_GET, 1⟩] (on_accept 5 AcceptEnv.success World.listening))) =
      [Res.handle 3, Res.handle 3, Res.evhttp 2, Res.evbase 1, Res.client 0, Res.job 4] ∧
    (server_job_function ⟨4, Fn.server_job_function, boundClient 5⟩
      [⟨evhttp_cmd_type.EVHTTP_REQ_GET, 1⟩]
      (on_accept 5 AcceptEnv.success World.listening)).faults =
      [Fault.bad_descriptor 5, Fault.double_free (Res.handle 3)] := by
  decide

/-! ## Shutdown -/

/-- C6 fails as stated: when `event_base_loopexit` reports an error while the
accept loop is running, `killServer` still issues the queue shutdown, with the
loop in state `Running`. -/
theorem killServer_shutdown_while_running :
    World.start.accept = AcceptState.Running ∧
    Ev.workqueue_shutdown AcceptState.Running ∈
      World.start.since (killServer (-1) World.start) := by
  decide

/-- C6, amended: `killServer` issues the queue shutdown exactly once, as its last
call and after the call of `event_base_loopexit`.  When `event_base_loopexit`
returned 0 the accept loop is not in state `Running` at that moment; when it
reported an error, `killServer` reports it with `perror` and issues the
shutdown with the accept loop in the state it was in before. -/
theorem killServer_shutdown_after_loopexit (r : Int) (w : World) :
    w.since (killServer r w) =
      [Ev.printf Msg.stopping_listener, Ev.event_base_loopexit w.evbase_accept r] ++
        (if r = 0 then [] else [Ev.perror Msg.loopexit_failed]) ++
        [Ev.printf Msg.stopping_workers, Ev.workqueue_shutdown (killServer r w).accept] ∧
    (if r = 0 then (killServer r w).accept ≠ AcceptState.Running
      else (killServer r w).accept = w.accept) ∧
    (killServer r w).workqueue.shutdown = true := by
  by_cases hr : r = 0
  · subst hr
    cases hacc : w.accept <;>
      simp [killServer, event_base_loopexit, workqueue_shutdown, perror, printf, World.emit,
        World.since, hacc]
  · simp [killServer, event_base_loopexit, workqueue_shutdown, perror, printf, World.emit,
      World.since, hr]

/-! ## The server -/

/-- One `on_accept` invocation extends the trace, never calls `close`, and
leaves the accept event base and the loop state alone. -/
theorem on_accept_frame (fd : Int) (env : AcceptEnv) (w : World) :
    ∃ t, (on_accept fd env w).trace = w.trace ++ t ∧ (∀ ev ∈ t, ev.isClose = false) ∧
      (on_accept fd env w).evbase_accept = w.evbase_accept ∧
      (on_accept fd env w).accept = w.accept := by
  rcases accept_paths env with h1 | ⟨h1, h2⟩ | ⟨h1, h2, h3⟩ | ⟨h1, h2, h3, h4⟩ |
    ⟨h1, h2, h3, h4, h5⟩ | ⟨h1, h2, h3, h4, h5, h6⟩ | hok
  · rw [on_accept_client_alloc_fails fd env w h1]
    exact ⟨_, rfl, by simp [Ev.isClose], rfl, rfl⟩
  · rw [on_accept_evbase_fails fd env w h1 h2]
    exact ⟨_, rfl, by simp [Ev.isClose], rfl, rfl⟩
  · rw [on_accept_evhttp_fails fd env w h1 h2 h3]
    exact ⟨_, rfl, by simp [Ev.isClose], rfl, rfl⟩
  · rw [on_accept_accept_fails fd env w h1 h2 h3 h4]
    exact ⟨_, rfl, by simp [Ev.isClose], rfl, rfl⟩
  · obtain ⟨ht, hb, ha, -⟩ := on_accept_nonblocking_fails fd env w h1 h2 h3 h4 h5
    exact ⟨_, ht, by by_cases hfd : 0 < fd <;> simp [Ev.isClose, closeCalls, hfd], hb, ha⟩
  · obtain ⟨ht, hb, ha, -⟩ := on_accept_job_alloc_fails fd env w h1 h2 h3 h4 h5 h6
    exact ⟨_, ht, by by_cases hfd : 0 < fd <;> simp [Ev.isClose, closeCalls, hfd], hb, ha⟩
  · rw [on_accept_all_succeed fd env w hok]
    exact ⟨_, rfl, by simp [Ev.isClose], rfl, rfl⟩

/-- The accept loop extends the trace, never calls `close`, and leaves the
accept event base alone. -/
theorem accept_loop_frame (fd : Int) (envs : List AcceptEnv) (w : World) :
    ∃ t, (envs.foldl (fun w env => on_accept fd env w) w).trace = w.trace ++ t ∧
      (∀ ev ∈ t, ev.isClose = false) ∧
      (envs.foldl (fun w env => on_accept fd env w) w).evbase_accept = w.evbase_accept := by
  induction envs generalizing w with
  | nil => exact ⟨[], by simp, by simp, rfl⟩
  | cons env rest ih =>
    obtain ⟨t1, ht1, hc1, hb1, -⟩ := on_accept_frame fd env w
    obtain ⟨t2, ht2, hc2, hb2⟩ := ih (on_accept fd env w)
    refine ⟨t1 ++ t2, ?_, ?_, ?_⟩
    · rw [List.foldl_cons, ht2, ht1, List.append_assoc]
    · intro ev hev
      rcases List.mem_append.mp hev with h | h
      · exact hc1 ev h
      · exact hc2 ev h
    · rw [List.foldl_cons, hb2, hb1]

/-- The calls of `accept_dispatch`: the dispatch call, the calls of the accept
handler, and the return of the dispatch call. -/
theorem accept_dispatch_frame (fd : Int) (envs : List AcceptEnv) (w : World) :
    ∃ t, (accept_dispatch fd envs w).trace =
        w.trace ++ ([Ev.event_base_dispatch w.evbase_accept] ++ t ++
          [Ev.event_base_dispatch_returned w.evbase_accept]) ∧
      (∀ ev ∈ t, ev.isClose = false) := by
  obtain ⟨t, ht, hc, hb⟩ := accept_loop_frame fd envs
    ({ w with accept := AcceptState.Running }.emit (Ev.event_base_dispatch w.evbase_accept))
  refine ⟨t, ?_, hc⟩
  simp only [accept_dispatch]
  simp only [World.emit] at ht hb ⊢
  rw [ht, hb]
  simp

/-- Path 1 of `runServer`: `socket` fails. -/
theorem runServer_socket_fails (env : ServerEnv) (w : World) (h1 : env.socket < 0) :
    runServer env w =
      (Exit.exit 1, { w with trace := w.trace ++ (socketCalls env ++
        [Ev.err 1 Msg.socket_failed]) }) := by
  simp [runServer, evutil_make_socket_nonblocking, event_base_new, workqueue_init,
    workqueue_shutdown, perror, printf, socket, close, World.emit, World.acquire, World.release,
    World.closefd, NUM_THREADS,
    socketCalls, h1]

/-- Path 2 of `runServer`: `bind` fails. -/
theorem runServer_bind_fails (env : ServerEnv) (w : World) (h1 : ¬ env.socket < 0)
    (h2 : env.bind < 0) :
    runServer env w =
      (Exit.exit 1, { w with
        fds := env.socket :: w.fds
        trace := w.trace ++ (socketCalls env ++
          [Ev.bind env.socket env.bind, Ev.err 1 Msg.bind_failed]) }) := by
  simp [runServer, evutil_make_socket_nonblocking, event_base_new, workqueue_init,
    workqueue_shutdown, perror, printf, socket, close, World.emit, World.acquire, World.release,
    World.closefd, NUM_THREADS,
    socketCalls, h1, h2]

/-- Path 3 of `runServer`: `listen` fails. -/
theorem runServer_listen_fails (env : ServerEnv) (w : World) (h1 : ¬ env.socket < 0)
    (h2 : ¬ env.bind < 0) (h3 : env.listen < 0) :
    runServer env w =
      (Exit.exit 1, { w with
        fds := env.socket :: w.fds
        trace := w.trace ++ (socketCalls env ++
          [Ev.bind env.socket env.bind, Ev.listen env.socket env.listen,
            Ev.err 1 Msg.listen_failed]) }) := by
  simp [runServer, evutil_make_socket_nonblocking, event_base_new, workqueue_init,
    workqueue_shutdown, perror, printf, socket, close, World.emit, World.acquire, World.release,
    World.closefd, NUM_THREADS,
    socketCalls, h1, h2, h3]

/-- Path 4 of `runServer`: the listening socket cannot be made non-blocking. -/
theorem runServer_nonblocking_fails (env : ServerEnv) (w : World) (h1 : ¬ env.socket < 0)
    (h2 : ¬ env.bind < 0) (h3 : ¬ env.listen < 0) (h4 : env.make_nonblocking < 0) :
    runServer env w =
      (Exit.exit 1, { w with
        fds := env.socket :: w.fds
        trace := w.trace ++ (socketCalls env ++
          [Ev.bind env.socket env.bind, Ev.listen env.socket env.listen,
            Ev.setsockopt env.socket,
            Ev.evutil_make_socket_nonblocking env.socket env.make_nonblocking,
            Ev.err 1 Msg.server_nonblocking_failed]) }) := by
  simp [runServer, evutil_make_socket_nonblocking, event_base_new, workqueue_init,
    workqueue_shutdown, perror, printf, socket, close, World.emit, World.acquire, World.release,
    World.closefd, NUM_THREADS,
    socketCalls, h1, h2, h3, h4]

/-- Path 5 of `runServer`: the accept event base cannot be created. -/
theorem runServer_evbase_fails (env : ServerEnv) (w : World) (h1 : ¬ env.socket < 0)
    (h2 : ¬ env.bind < 0) (h3 : ¬ env.listen < 0) (h4 : ¬ env.make_nonblocking < 0)
    (h5 : env.evbase_new = false) :
    runServer env w =
      (Exit.ret 1, { w with
        evbase_accept := none
        trace := w.trace ++ (socketCalls env ++
          [Ev.bind env.socket env.bind, Ev.listen env.socket env.listen,
            Ev.setsockopt env.socket,
            Ev.evutil_make_socket_nonblocking env.socket env.make_nonblocking,
            Ev.event_base_new none, Ev.perror Msg.accept_evbase_failed,
            Ev.close env.socket]) }) := by
  simp [runServer, evutil_make_socket_nonblocking, event_base_new, workqueue_init,
    workqueue_shutdown, perror, printf, socket, close, World.emit, World.acquire, World.release,
    World.closefd, NUM_THREADS,
    socketCalls, h1, h2, h3, h4, h5]

/-- Path 6 of `runServer`: the work queue cannot be initialised. -/
theorem runServer_workqueue_fails (env : ServerEnv) (w : World) (h1 : ¬ env.socket < 0)
    (h2 : ¬ env.bind < 0) (h3 : ¬ env.listen < 0) (h4 : ¬ env.make_nonblocking < 0)
    (h5 : env.evbase_new = true) (h6 : env.workqueue_init ≠ 0) :
    runServer env w =
      (Exit.ret 1, { w with
        next := w.next + 1
        live := Res.evbase w.next :: w.live
        evbase_accept := some w.next
        workqueue := ⟨[], true⟩
        trace := w.trace ++ (socketCalls env ++
          [Ev.bind env.socket env.bind, Ev.listen env.socket env.listen,
            Ev.setsockopt env.socket,
            Ev.evutil_make_socket_nonblocking env.socket env.make_nonblocking,
            Ev.event_base_new (some w.next), Ev.workqueue_init NUM_THREADS env.workqueue_init,
            Ev.perror Msg.workqueue_failed, Ev.close env.socket,
            Ev.workqueue_shutdown w.accept]) }) := by
  simp [runServer, evutil_make_socket_nonblocking, event_base_new, workqueue_init,
    workqueue_shutdown, perror, printf, socket, close, World.emit, World.acquire, World.release,
    World.closefd, NUM_THREADS,
    socketCalls, h1, h2, h3, h4, h5, h6]

/-- Path 7 of `runServer`: every startup step succeeds; the accept loop runs and
returns, the accept event base is freed, the listening socket is closed and
0 is returned. -/
theorem runServer_startup_succeeds (env : ServerEnv) (w : World) (hok : ¬ env.startupFails) :
    ∃ t, (∀ ev ∈ t, ev.isClose = false) ∧
      (runServer env w).1 = Exit.ret 0 ∧
      (runServer env w).2.trace = w.trace ++ (startupCalls env w.next ++
        ([Ev.event_base_dispatch (some w.next)] ++ t ++
          [Ev.event_base_dispatch_returned (some w.next)]) ++
        [Ev.event_base_free w.next, Ev.close env.socket, Ev.printf Msg.server_shutdown]) := by
  simp only [ServerEnv.startupFails, not_or, Bool.not_eq_false, ne_eq, not_not] at hok
  obtain ⟨h1, h2, h3, h4, h5, h6⟩ := hok
  obtain ⟨t, ht, hc⟩ := accept_dispatch_frame env.socket env.accepts
    { w with
      next := w.next + 1
      live := Res.evbase w.next :: w.live
      evbase_accept := some w.next
      workqueue := ⟨[], false⟩
      fds := env.socket :: w.fds
      trace := w.trace ++ startupCalls env w.next }
  refine ⟨t, hc, ?_, ?_⟩
  · simp [runServer, evutil_make_socket_nonblocking, event_base_new, workqueue_init,
    workqueue_shutdown, perror, printf, socket, close, World.emit, World.acquire, World.release,
    World.closefd, NUM_THREADS,
    h1, h2, h3, h4, h5, h6]
  · simp only [startupCalls, socketCalls, List.cons_append, List.nil_append, List.append_assoc,
      NUM_THREADS, h6] at ht
    simp [runServer, evutil_make_socket_nonblocking, event_base_new, workqueue_init,
      workqueue_shutdown, perror, printf, socket, close, World.emit, World.acquire, World.release,
    World.closefd, NUM_THREADS,
      startupCalls, socketCalls, h1, h2, h3, h4, h5, h6, ht]

/-- The seven paths of `runServer`, by the first step that fails. -/
theorem server_paths (env : ServerEnv) :
    env.socket < 0 ∨
    (¬ env.socket < 0 ∧ env.bind < 0) ∨
    (¬ env.socket < 0 ∧ ¬ env.bind < 0 ∧ env.listen < 0) ∨
    (¬ env.socket < 0 ∧ ¬ env.bind < 0 ∧ ¬ env.listen < 0 ∧ env.make_nonblocking < 0) ∨
    (¬ env.socket < 0 ∧ ¬ env.bind < 0 ∧ ¬ env.listen < 0 ∧ ¬ env.make_nonblocking < 0 ∧
      env.evbase_new = false) ∨
    (¬ env.socket < 0 ∧ ¬ env.bind < 0 ∧ ¬ env.listen < 0 ∧ ¬ env.make_nonblocking < 0 ∧
      env.evbase_new = true ∧ env.workqueue_init ≠ 0) ∨
    ¬ env.startupFails := by
  unfold ServerEnv.startupFails
  by_cases h1 : env.socket < 0
  · exact Or.inl h1
  by_cases h2 : env.bind < 0
  · exact Or.inr (Or.inl ⟨h1, h2⟩)
  by_cases h3 : env.listen < 0
  · exact Or.inr (Or.inr (Or.inl ⟨h1, h2, h3⟩))
  by_cases h4 : env.make_nonblocking < 0
  · exact Or.inr (Or.inr (Or.inr (Or.inl ⟨h1, h2, h3, h4⟩)))
  cases h5 : env.evbase_new
  · exact Or.inr (Or.inr (Or.inr (Or.inr (Or.inl ⟨h1, h2, h3, h4, rfl⟩))))
  by_cases h6 : env.workqueue_init = 0
  · refine Or.inr (Or.inr (Or.inr (Or.inr (Or.inr (Or.inr ?_)))))
    simp [h1, h2, h3, h4, h6]
  · exact Or.inr (Or.inr (Or.inr (Or.inr (Or.inr (Or.inl ⟨h1, h2, h3, h4, rfl, h6⟩)))))

/-- C7: when a startup step fails, `runServer` ends with status 1 (by `err` or by
`return 1`), an error report is among its calls, and it neither registers the
accept event nor enters the accept loop; when no startup step fails it
returns 0, after `event_base_dispatch` on the accept base was called and
returned. -/
theorem runServer_startup_failure_fatal (env : ServerEnv) (w : World) :
    (env.startupFails →
      ((runServer env w).1 = Exit.exit 1 ∨ (runServer env w).1 = Exit.ret 1) ∧
      (∃ ev ∈ w.since (runServer env w).2, ev.isErrorReport = true) ∧
      (∀ ev ∈ w.since (runServer env w).2, ev.isLoopCall = false)) ∧
    ((runServer env w).1 = Exit.ret 0 ↔ ¬ env.startupFails) ∧
    ((runServer env w).1 = Exit.ret 0 →
      ∃ b before during after, w.since (runServer env w).2 =
        before ++ [Ev.event_new b env.socket Fn.on_accept, Ev.event_add env.socket,
          Ev.printf Msg.server_running, Ev.event_base_dispatch b] ++ during ++
          [Ev.event_base_dispatch_returned b] ++ after) := by
  rcases server_paths env with h1 | ⟨h1, h2⟩ | ⟨h1, h2, h3⟩ | ⟨h1, h2, h3, h4⟩ |
    ⟨h1, h2, h3, h4, h5⟩ | ⟨h1, h2, h3, h4, h5, h6⟩ | hok
  · rw [runServer_socket_fails env w h1]
    simp [World.since, socketCalls, Ev.isErrorReport, Ev.isLoopCall, ServerEnv.startupFails, h1]
  · rw [runServer_bind_fails env w h1 h2]
    simp [World.since, socketCalls, Ev.isErrorReport, Ev.isLoopCall, ServerEnv.startupFails, h2]
  · rw [runServer_listen_fails env w h1 h2 h3]
    simp [World.since, socketCalls, Ev.isErrorReport, Ev.isLoopCall, ServerEnv.startupFails, h3]
  · rw [runServer_nonblocking_fails env w h1 h2 h3 h4]
    simp [World.since, socketCalls, Ev.isErrorReport, Ev.isLoopCall, ServerEnv.startupFails, h4]
  · rw [runServer_evbase_fails env w h1 h2 h3 h4 h5]
    simp [World.since, socketCalls, Ev.isErrorReport, Ev.isLoopCall, ServerEnv.startupFails, h5]
  · rw [runServer_workqueue_fails env w h1 h2 h3 h4 h5 h6]
    simp [World.since, socketCalls, Ev.isErrorReport, Ev.isLoopCall, ServerEnv.startupFails, h6]
  · obtain ⟨t, -, hret, htr⟩ := runServer_startup_succeeds env w hok
    refine ⟨fun hfail => absurd hfail hok, ⟨fun _ => hok, fun _ => hret⟩, fun _ => ?_⟩
    refine ⟨some w.next, socketCalls env ++
      [Ev.bind env.socket env.bind, Ev.listen env.socket env.listen, Ev.setsockopt env.socket,
        Ev.evutil_make_socket_nonblocking env.socket env.make_nonblocking,
        Ev.event_base_new (some w.next), Ev.workqueue_init NUM_THREADS env.workqueue_init], t,
      [Ev.event_base_free w.next, Ev.close env.socket, Ev.printf Msg.server_shutdown], ?_⟩
    rw [since_of_trace w _ _ htr]
    simp [startupCalls]

/-- Witness for C7: a run whose work queue cannot be initialised, and a run of
two clients. -/
theorem runServer_startup_failure_fatal_witness :
    (ServerEnv.queueFails.startupFails ∧
      ((runServer ServerEnv.queueFails World.start).1 = Exit.exit 1 ∨
        (runServer ServerEnv.queueFails World.start).1 = Exit.ret 1) ∧
      (∃ ev ∈ World.start.since (runServer ServerEnv.queueFails World.start).2,
        ev.isErrorReport = true) ∧
      (∀ ev ∈ World.start.since (runServer ServerEnv.queueFails World.start).2,
        ev.isLoopCall = false)) ∧
    ((runServer ServerEnv.twoClients World.start).1 = Exit.ret 0 ∧
      ∃ b before during after, World.start.since (runServer ServerEnv.twoClients World.start).2 =
        before ++ [Ev.event_new b ServerEnv.twoClients.socket Fn.on_accept,
          Ev.event_add ServerEnv.twoClients.socket, Ev.printf Msg.server_running,
          Ev.event_base_dispatch b] ++ during ++ [Ev.event_base_dispatch_returned b] ++ after) :=
  ⟨⟨by decide,
      (runServer_startup_failure_fatal ServerEnv.queueFails World.start).1 (by decide)⟩,
    ⟨by decide,
      (runServer_startup_failure_fatal ServerEnv.twoClients World.start).2.2 (by decide)⟩⟩

/-- C3 at a run of two clients: the listening socket is descriptor 5, both
accepts succeed, and the two queued clients have distinct event bases,
distinct evhttp instances and distinct handles, but both handles are bound to
descriptor 5, the listening socket itself. -/
theorem runServer_clients_share_listening_descriptor :
    ServerEnv.twoClients.socket = 5 ∧
    (runServer ServerEnv.twoClients World.start).2.workqueue.waiting_jobs.map
        (fun job => job.user_data) =
      [⟨1, some 2, some 3, some ⟨4, 5⟩⟩, ⟨6, some 7, some 8, some ⟨9, 5⟩⟩] ∧
    (runServer ServerEnv.twoClients World.start).2.workqueue.waiting_jobs.map
        (fun job => job.user_data.handle.map evhttp_bound_socket_get_fd) =
      [some 5, some 5] := by
  decide

end GetSample
